import Mathlib

/-!
Verification of the TenAsia Intelligence Hub automated reconciliation core.

The repository ships the Next.js dashboard (`web-next/`), infrastructure and
deployment plumbing; the FastAPI backend that implements the Decision Engine
and the Conflict Ledger resolution endpoint is not part of the source tree —
only its request/response types (`web-next/lib/types.ts`) and its callers
(`web-next/lib/api.ts`, `components/automation/ResolutionFeed.tsx`) are.
Accordingly, the pure client-side functions below are translated directly from
the TypeScript source, while the engine and the resolution workflow are
modelled from the specification (each such definition says so in its doc
comment).

Numeric scores (confidence, reliability, conflict score) are JavaScript /
Python floats in the product; they are embedded as rationals (`ℚ`).  Strings
are manipulated through executable helpers over `List Char` so that concrete
witnesses can be checked by evaluation.
-/

namespace TenAsia

/-! ## String helpers (executable models of `trim` and whitespace collapse) -/

/-- Model of JavaScript `String.prototype.trim` / Python `str.strip`:
drop leading and trailing whitespace. -/
def jsTrim (s : String) : String :=
  ⟨((s.data.dropWhile Char.isWhitespace).reverse.dropWhile Char.isWhitespace).reverse⟩

/-- Split a character list into maximal whitespace-free words. -/
def wordsAux : List Char → List Char → List (List Char)
  | [], acc => if acc.isEmpty then [] else [acc.reverse]
  | c :: cs, acc =>
    if c.isWhitespace then
      if acc.isEmpty then wordsAux cs [] else acc.reverse :: wordsAux cs []
    else wordsAux cs (c :: acc)

/-- Case/whitespace normalization for text values: lowercase, trim, and
collapse internal whitespace runs to a single space. -/
def normText (s : String) : String :=
  ⟨List.intercalate [' '] (wordsAux (s.data.map Char.toLower) [])⟩

/-! ## Data model (from `web-next/lib/types.ts` and spec §3) -/

inductive EntityKind
  | ARTIST
  | GROUP
deriving DecidableEq, Repr

inductive ResolutionType
  | FILL
  | RECONCILE
  | ENROLL
deriving DecidableEq, Repr

inductive ConflictStatus
  | OPEN
  | RESOLVED
  | DISMISSED
deriving DecidableEq, Repr

/-- A field value: free text (compared up to case/whitespace normalization)
or a structured payload (compared exactly). -/
inductive Value
  | text (s : String)
  | structured (s : String)
deriving DecidableEq, Repr

/-- Semantic equality of field values: case/whitespace-normalized for text,
exact for structured types (spec §4.2 step 3). -/
def equivalent : Value → Value → Bool
  | .text a, .text b => normText a == normText b
  | .structured a, .structured b => a == b
  | _, _ => false

/-- A value carrying no information: text that is empty after trimming. -/
def isEmptyVal : Value → Bool
  | .text s => jsTrim s == ""
  | .structured _ => false

/-! ## Severity display (`scoreColor` / `scoreBg`,
`web-next/components/automation/ResolutionFeed.tsx`) -/

/-- Text color class for a conflict score, translated from `scoreColor`. -/
def scoreColor (score : ℚ) : String :=
  if 4/5 ≤ score then "text-red-400"
  else if 1/2 ≤ score then "text-amber-400"
  else "text-yellow-400"

/-- Background color class for a conflict score, translated from `scoreBg`. -/
def scoreBg (score : ℚ) : String :=
  if 4/5 ≤ score then "bg-red-500/10"
  else if 1/2 ≤ score then "bg-amber-500/10"
  else "bg-yellow-500/10"

/-! ## The `request` helper (`web-next/lib/api.ts`) -/

/-- An HTTP response as seen by the `request` helper.  `jsonValue` stands for
the document `res.json()` resolves to, abstracted as a string. -/
structure HttpResponse where
  status : Nat
  statusText : String
  bodyText : String
  jsonValue : String
deriving DecidableEq, Repr

/-- `Response.ok` per the fetch specification: status in 200..299. -/
def respOk (r : HttpResponse) : Bool :=
  200 ≤ r.status && r.status ≤ 299

/-- The error message built by `request` on a non-ok response:
`` `${res.status} ${res.statusText}: ${text}` ``. -/
def requestErrorMsg (r : HttpResponse) : String :=
  toString r.status ++ " " ++ r.statusText ++ ": " ++ r.bodyText

/-- The `request` helper of `web-next/lib/api.ts`: throw on non-ok status
(modelled as `Except.error`), return `undefined` (modelled as `none`) on 204,
otherwise return the parsed JSON body. -/
def request (r : HttpResponse) : Except String (Option String) :=
  if respOk r = false then .error (requestErrorMsg r)
  else if r.status = 204 then .ok none
  else .ok (some r.jsonValue)

/-- `needle` occurs contiguously inside `hay`. -/
def containsSubstring (needle hay : String) : Prop :=
  ∃ pre post, hay = pre ++ needle ++ post

lemma string_append_assoc (a b c : String) : a ++ b ++ c = a ++ (b ++ c) := by
  cases a; cases b; cases c
  show String.mk _ = String.mk _
  simp [String.append, List.append_assoc]

/-! ## Claim theorems for the display and transport layers -/

/-- Claim C9: the conflict severity display partitions `conflict_score` into
exactly three bands with boundaries 0.5 and 0.8, both inclusive in the upper
band: `score ≥ 0.8` is styled red, `0.5 ≤ score < 0.8` amber, `score < 0.5`
yellow, and `scoreColor` and `scoreBg` agree on the band for every input. -/
theorem severity_bands (s : ℚ) :
    ((4/5 : ℚ) ≤ s → scoreColor s = "text-red-400" ∧ scoreBg s = "bg-red-500/10") ∧
    ((1/2 : ℚ) ≤ s → s < 4/5 → scoreColor s = "text-amber-400" ∧ scoreBg s = "bg-amber-500/10") ∧
    (s < (1/2 : ℚ) → scoreColor s = "text-yellow-400" ∧ scoreBg s = "bg-yellow-500/10") := by
  refine ⟨fun h => ?_, fun h1 h2 => ?_, fun h => ?_⟩
  · simp [scoreColor, scoreBg, h]
  · have hn : ¬ ((4:ℚ)/5 ≤ s) := not_le.mpr h2
    simp only [scoreColor, scoreBg, if_neg hn, if_pos h1, and_self]
  · have hn1 : ¬ ((4:ℚ)/5 ≤ s) := not_le.mpr (by linarith)
    have hn2 : ¬ ((1:ℚ)/2 ≤ s) := not_le.mpr h
    simp only [scoreColor, scoreBg, if_neg hn1, if_neg hn2, and_self]

/-- Witness for C9: one concrete score in each band. -/
theorem severity_bands_witness :
    (scoreColor (9/10) = "text-red-400" ∧ scoreBg (9/10) = "bg-red-500/10") ∧
    (scoreColor (3/5) = "text-amber-400" ∧ scoreBg (3/5) = "bg-amber-500/10") ∧
    (scoreColor (3/10) = "text-yellow-400" ∧ scoreBg (3/10) = "bg-yellow-500/10") :=
  ⟨(severity_bands (9/10)).1 (by norm_num),
   (severity_bands (3/5)).2.1 (by norm_num) (by norm_num),
   (severity_bands (3/10)).2.2 (by norm_num)⟩

/-- Claim C10: every call through the `request` helper either returns the
parsed JSON body, returns `undefined` when the status is exactly 204, or
throws an `Error` whose message contains the status code, status text and
response body; a non-ok response is never returned as a value. -/
theorem request_outcome (r : HttpResponse) :
    (respOk r = true → r.status ≠ 204 → request r = .ok (some r.jsonValue)) ∧
    (respOk r = true → r.status = 204 → request r = .ok none) ∧
    (respOk r = false →
      request r = .error (requestErrorMsg r) ∧
      containsSubstring (toString r.status) (requestErrorMsg r) ∧
      containsSubstring r.statusText (requestErrorMsg r) ∧
      containsSubstring r.bodyText (requestErrorMsg r)) ∧
    (∀ v, request r = .ok v → respOk r = true) := by
  refine ⟨fun hok h204 => ?_, fun hok h204 => ?_, fun hko => ?_, fun v hv => ?_⟩
  · simp [request, hok, h204]
  · simp [request, hok, h204]
  · refine ⟨by simp [request, hko], ?_, ?_, ?_⟩
    · exact ⟨"", " " ++ r.statusText ++ ": " ++ r.bodyText, by
        simp [requestErrorMsg, string_append_assoc]⟩
    · exact ⟨toString r.status ++ " ", ": " ++ r.bodyText, by
        simp [requestErrorMsg, string_append_assoc]⟩
    · exact ⟨toString r.status ++ " " ++ r.statusText ++ ": ", "", by
        simp [requestErrorMsg, string_append_assoc]⟩
  · by_contra hko
    have hko' : respOk r = false := by
      cases h : respOk r
      · rfl
      · exact absurd h hko
    simp [request, hko'] at hv

/-- A successful JSON response. -/
def okResponse : HttpResponse :=
  { status := 200, statusText := "OK", bodyText := "", jsonValue := "payload" }

/-- A 204 No Content response. -/
def noContentResponse : HttpResponse :=
  { status := 204, statusText := "No Content", bodyText := "", jsonValue := "unused" }

/-- A failing response. -/
def notFoundResponse : HttpResponse :=
  { status := 404, statusText := "Not Found", bodyText := "missing", jsonValue := "ignored" }

/-- Witness for C10: the three outcomes at concrete responses. -/
theorem request_outcome_witness :
    request okResponse = .ok (some "payload") ∧
    request noContentResponse = .ok none ∧
    request notFoundResponse = .error (requestErrorMsg notFoundResponse) := by
  refine ⟨(request_outcome okResponse).1 rfl (by decide),
          (request_outcome noContentResponse).2.1 rfl rfl,
          ((request_outcome notFoundResponse).2.2.1 rfl).1⟩

/-! ## Conflict flags and the resolution workflow -/

/-- A disputed field change awaiting human adjudication
(`ConflictFlag` in `web-next/lib/types.ts`). -/
structure ConflictFlag where
  id : Nat
  articleId : Option Nat
  entityKind : EntityKind
  entityId : Nat
  fieldName : String
  existingValue : Option Value
  conflictingValue : Value
  conflictReason : String
  conflictScore : ℚ
  status : ConflictStatus
  resolvedBy : Option String
  resolvedAt : Option Nat
  createdAt : Nat
deriving DecidableEq, Repr

/-- The action part of a resolution request
(`"RESOLVED" | "DISMISSED"` in `web-next/lib/types.ts`). -/
inductive ResolveAction
  | RESOLVED
  | DISMISSED
deriving DecidableEq, Repr

/-- The terminal status a resolution action drives the flag to. -/
def ResolveAction.toStatus : ResolveAction → ConflictStatus
  | .RESOLVED => .RESOLVED
  | .DISMISSED => .DISMISSED

/-- Failure modes of the resolution workflow (spec §7). -/
inductive ResolveError
  | InvalidInput
  | AlreadyResolved
deriving DecidableEq, Repr

/-- Modelled from the spec: the backend handler behind
`PATCH /automation/conflicts/:id` is not in the source tree (only its client
`automationApi.resolveConflict` and its request/response types are).  Per
§4.3, a non-OPEN flag fails with `AlreadyResolved` and no mutation is
performed; an empty `resolved_by` fails with `InvalidInput`; otherwise the
flag transitions `OPEN → RESOLVED/DISMISSED` with `resolved_by`/`resolved_at`
set.  An error result carries no flag, so an error performs no mutation. -/
def applyResolve (flag : ConflictFlag) (action : ResolveAction)
    (resolver : String) (now : Nat) : Except ResolveError ConflictFlag :=
  if flag.status ≠ .OPEN then .error .AlreadyResolved
  else if jsTrim resolver = "" then .error .InvalidInput
  else .ok { flag with
              status := action.toStatus
              resolvedBy := some resolver
              resolvedAt := some now }

/-! ## The automation client interface (`web-next/lib/api.ts`) -/

/-- The body of `automationApi.resolveConflict`
(`ConflictResolveRequest` in `web-next/lib/types.ts`): it has exactly the
two properties `action` and `resolved_by`. -/
structure ConflictResolveRequest where
  action : ResolveAction
  resolved_by : String
deriving DecidableEq, Repr

/-- The property names serialized by
`JSON.stringify(body)` for a `ConflictResolveRequest`. -/
def conflictResolveBodyKeys (_ : ConflictResolveRequest) : List String :=
  ["action", "resolved_by"]

inductive HttpMethod
  | GET
  | POST
  | PUT
  | PATCH
  | DELETE
deriving DecidableEq, Repr

/-- The four operations of the exported `automationApi` object. -/
inductive AutomationOp
  | summary
  | feed (limit offset : Option Nat) (resolutionType : Option String)
  | conflicts (status : Option String) (limit offset : Option Nat)
  | resolveConflict (id : Nat) (body : ConflictResolveRequest)
deriving DecidableEq, Repr

/-- HTTP method of each `automationApi` operation (a `fetch` without a
`method` option issues a GET). -/
def opMethod : AutomationOp → HttpMethod
  | .summary => .GET
  | .feed _ _ _ => .GET
  | .conflicts _ _ _ => .GET
  | .resolveConflict _ _ => .PATCH

/-- Render query pairs the way `URLSearchParams.toString` joins them. -/
def renderQuery (ps : List (String × String)) : String :=
  String.intercalate "&" (ps.map (fun p => p.1 ++ "=" ++ p.2))

/-- Query pairs built by `automationApi.feed` (the `resolution_type`
parameter is skipped when absent or empty, mirroring the truthiness test). -/
def feedQuery (limit offset : Option Nat) (rt : Option String) :
    List (String × String) :=
  (match limit with | some n => [("limit", toString n)] | none => []) ++
  (match offset with | some n => [("offset", toString n)] | none => []) ++
  (match rt with
   | some s => if s = "" then [] else [("resolution_type", s)]
   | none => [])

/-- Query pairs built by `automationApi.conflicts`. -/
def conflictsQuery (status : Option String) (limit offset : Option Nat) :
    List (String × String) :=
  (match status with | some s => [("status", s)] | none => []) ++
  (match limit with | some n => [("limit", toString n)] | none => []) ++
  (match offset with | some n => [("offset", toString n)] | none => [])

/-- Request path of each `automationApi` operation. -/
def opPath : AutomationOp → String
  | .summary => "/automation/summary"
  | .feed l o rt => "/automation/feed?" ++ renderQuery (feedQuery l o rt)
  | .conflicts s l o => "/automation/conflicts?" ++ renderQuery (conflictsQuery s l o)
  | .resolveConflict i _ => "/automation/conflicts/" ++ toString i

/-- Serialized body keys of each `automationApi` operation (`none` when the
operation sends no body). -/
def opBodyKeys : AutomationOp → Option (List String)
  | .resolveConflict _ body => some (conflictResolveBodyKeys body)
  | _ => none

/-! ## The UI submission handler
(`ConflictRow.handleAction` in `ResolutionFeed.tsx`) -/

/-- Observable outcome of `handleAction`: either the API call it issues, or
the error message it shows instead. -/
inductive HandleActionResult
  | apiCall (conflictId : Nat) (body : ConflictResolveRequest)
  | errorShown (msg : String)
deriving DecidableEq, Repr

/-- `ConflictRow.handleAction`: refuse with an error message when the trimmed
`resolvedBy` is empty, otherwise call
`automationApi.resolveConflict(conflict.id, { action, resolved_by })`
with the trimmed name. -/
def handleAction (conflictId : Nat) (resolvedBy : String)
    (action : ResolveAction) : HandleActionResult :=
  if jsTrim resolvedBy = "" then .errorShown "처리자 이름을 입력하세요."
  else .apiCall conflictId { action := action, resolved_by := jsTrim resolvedBy }

/-! ## Claim theorems for the workflow and the interface -/

/-- Claim C1: the resolve operation transitions a `ConflictFlag` at most
once.  An OPEN flag may move to the terminal status of the requested action
(RESOLVED or DISMISSED); any resolve call on a flag whose status is not OPEN
fails with `AlreadyResolved`, and since an error result carries no flag, it
changes none of the flag's fields. -/
theorem conflict_resolve_at_most_once (flag : ConflictFlag) (a : ResolveAction)
    (resolver : String) (now : Nat) :
    (flag.status ≠ .OPEN →
      ∀ a2 r2 t2, applyResolve flag a2 r2 t2 = .error .AlreadyResolved) ∧
    (∀ f2, applyResolve flag a resolver now = .ok f2 →
      flag.status = .OPEN ∧
      (f2.status = .RESOLVED ∨ f2.status = .DISMISSED) ∧
      f2.status = a.toStatus ∧
      f2.resolvedBy = some resolver ∧ f2.resolvedAt = some now ∧
      ∀ a2 r2 t2, applyResolve f2 a2 r2 t2 = .error .AlreadyResolved) := by
  constructor
  · intro hs a2 r2 t2
    simp [applyResolve, hs]
  · intro f2 hok
    by_cases hs : flag.status = .OPEN
    · by_cases hr : jsTrim resolver = ""
      · simp [applyResolve, hs, hr] at hok
      · simp only [applyResolve, hs, ne_eq, not_true_eq_false, if_false, hr,
          if_neg hr, Except.ok.injEq] at hok
        subst hok
        refine ⟨hs, ?_, rfl, rfl, rfl, ?_⟩
        · cases a
          · exact Or.inl rfl
          · exact Or.inr rfl
        · intro a2 r2 t2
          have : ResolveAction.toStatus a ≠ ConflictStatus.OPEN := by
            cases a <;> simp [ResolveAction.toStatus]
          simp [applyResolve, this]
    · simp [applyResolve, hs] at hok

/-- A sample OPEN flag (the disputed label of spec scenario 4). -/
def sampleOpenFlag : ConflictFlag :=
  { id := 7, articleId := some 3, entityKind := .GROUP, entityId := 2
    fieldName := "label", existingValue := some (.text "HYBE")
    conflictingValue := .text "Big Hit", conflictReason := "contradicts existing value"
    conflictScore := 3/4, status := .OPEN, resolvedBy := none, resolvedAt := none
    createdAt := 0 }

/-- The flag of `sampleOpenFlag` after a successful RESOLVED action. -/
def resolvedSampleFlag : ConflictFlag :=
  { sampleOpenFlag with
      status := .RESOLVED, resolvedBy := some "staff1", resolvedAt := some 5 }

/-- Witness for C1: resolving a concrete OPEN flag succeeds and reaches a
terminal status, and a second resolve on the result fails with
`AlreadyResolved`. -/
theorem conflict_resolve_at_most_once_witness :
    sampleOpenFlag.status = .OPEN ∧
    (resolvedSampleFlag.status = .RESOLVED ∨ resolvedSampleFlag.status = .DISMISSED) ∧
    applyResolve resolvedSampleFlag .DISMISSED "staff2" 6 = .error .AlreadyResolved := by
  have h := (conflict_resolve_at_most_once sampleOpenFlag .RESOLVED "staff1" 5).2
    resolvedSampleFlag rfl
  exact ⟨h.1, h.2.1, h.2.2.2.2.2 .DISMISSED "staff2" 6⟩

/-- Counterexample for C5 as stated: the RESOLVED request the UI actually
submits carries no `chosen_value` — the serialized body has exactly the keys
`action` and `resolved_by`. -/
theorem resolve_request_chosen_value_cex :
    handleAction 9 "staff1" .RESOLVED =
      .apiCall 9 { action := .RESOLVED, resolved_by := "staff1" } ∧
    "chosen_value" ∉
      conflictResolveBodyKeys { action := .RESOLVED, resolved_by := "staff1" } := by
  constructor
  · rfl
  · decide

/-- Claim C5 (amended): the conflict resolution request carries no
`chosen_value` for either action — its body consists of exactly `action` and
`resolved_by`, sent via PATCH to `/automation/conflicts/:id`. -/
theorem resolve_request_shape (i : Nat) (r : ConflictResolveRequest) :
    opMethod (.resolveConflict i r) = .PATCH ∧
    opBodyKeys (.resolveConflict i r) = some ["action", "resolved_by"] ∧
    "chosen_value" ∉ conflictResolveBodyKeys r ∧
    opPath (.resolveConflict i r) = "/automation/conflicts/" ++ toString i := by
  refine ⟨rfl, rfl, ?_, rfl⟩
  show "chosen_value" ∉ ["action", "resolved_by"]
  decide

/-- Claim C6: an empty or missing `resolved_by` is rejected and no resolution
is performed — the UI handler refuses to call the resolve API when the
trimmed `resolvedBy` is empty and shows an error instead (and the modelled
backend rejects it with `InvalidInput`); every submitted request carries the
trimmed, non-empty `resolved_by`. -/
theorem resolved_by_validated (cid : Nat) (s : String) (a : ResolveAction)
    (flag : ConflictFlag) :
    (jsTrim s = "" → handleAction cid s a = .errorShown "처리자 이름을 입력하세요.") ∧
    (jsTrim s = "" → flag.status = .OPEN →
      ∀ t, applyResolve flag a s t = .error .InvalidInput) ∧
    (∀ c body, handleAction cid s a = .apiCall c body →
      c = cid ∧ body.action = a ∧ body.resolved_by = jsTrim s ∧
      body.resolved_by ≠ "") := by
  refine ⟨fun h => ?_, fun h hopen t => ?_, fun c body hcall => ?_⟩
  · simp [handleAction, h]
  · simp [applyResolve, hopen, h]
  · by_cases h : jsTrim s = ""
    · simp [handleAction, h] at hcall
    · simp only [handleAction, if_neg h, HandleActionResult.apiCall.injEq] at hcall
      obtain ⟨hc, hb⟩ := hcall
      subst hc
      subst hb
      exact ⟨rfl, rfl, rfl, h⟩

/-- Witness for C6: an all-whitespace name is refused by the UI and by the
modelled backend; a padded name is submitted trimmed and non-empty. -/
theorem resolved_by_validated_witness :
    handleAction 3 "   " .DISMISSED = .errorShown "처리자 이름을 입력하세요." ∧
    applyResolve sampleOpenFlag .DISMISSED "   " 1 = .error .InvalidInput ∧
    handleAction 3 " staff1 " .RESOLVED =
      .apiCall 3 { action := .RESOLVED, resolved_by := jsTrim " staff1 " } ∧
    ({ action := .RESOLVED, resolved_by := jsTrim " staff1 " }
        : ConflictResolveRequest).resolved_by ≠ "" := by
  refine ⟨(resolved_by_validated 3 "   " .DISMISSED sampleOpenFlag).1 rfl,
          (resolved_by_validated 3 "   " .DISMISSED sampleOpenFlag).2.1 rfl rfl 1,
          rfl,
          ((resolved_by_validated 3 " staff1 " .RESOLVED sampleOpenFlag).2.2 3
            { action := .RESOLVED, resolved_by := jsTrim " staff1 " } rfl).2.2.2⟩

/-- Claim C7: the exported automation interface is structurally read-only
over the audit log — every operation either issues a GET (a pure read:
summary, feed, conflicts) or is the conflict-resolution PATCH addressed to
`/automation/conflicts/:id`; no operation updates or deletes an
`AutoResolutionLog` row. -/
theorem automation_interface_read_only (op : AutomationOp) :
    opMethod op = .GET ∨
    (opMethod op = .PATCH ∧
      ∃ i body, op = .resolveConflict i body ∧
        opPath op = "/automation/conflicts/" ++ toString i ∧
        opBodyKeys op = some ["action", "resolved_by"]) := by
  cases op with
  | summary => exact Or.inl rfl
  | feed l o rt => exact Or.inl rfl
  | conflicts s l o => exact Or.inl rfl
  | resolveConflict i body => exact Or.inr ⟨rfl, i, body, rfl, rfl, rfl⟩

/-! ## Entities and the Decision Engine (modelled from spec §3–§4.2; the
backend engine is not in the source tree) -/

/-- Modelled from the spec: a canonical record of kind ARTIST or GROUP with
named fields, a verification flag and a reliability score (§3). -/
structure Entity where
  id : Nat
  kind : EntityKind
  fields : List (String × Value)
  is_verified : Bool
  reliability : ℚ
deriving DecidableEq, Repr

/-- Look a field up in an association list of named fields. -/
def lookupField (fs : List (String × Value)) (name : String) : Option Value :=
  (fs.find? (fun p => p.1 == name)).map (fun p => p.2)

/-- Write a field into an association list of named fields. -/
def setField : List (String × Value) → String → Value → List (String × Value)
  | [], name, v => [(name, v)]
  | (k, w) :: rest, name, v =>
    if k == name then (k, v) :: rest else (k, w) :: setField rest name v

/-- Current value of a named field of an entity. -/
def Entity.fieldValue (e : Entity) (name : String) : Option Value :=
  lookupField e.fields name

/-- The entity with one field overwritten. -/
def Entity.writeField (e : Entity) (name : String) (v : Value) : Entity :=
  { e with fields := setField e.fields name v }

/-- Modelled from the spec: an entity reference — an existing entity id, or a
proposed new entity description (kind and name) when no match exists (§3). -/
structure EntityRef where
  refId : Option Nat
  kind : EntityKind
  name : String
deriving DecidableEq, Repr

/-- Modelled from the spec: one candidate fact produced by Extraction Intake
(§3): article, entity reference, field, value, extraction confidence and
source reliability, both in [0,1]. -/
structure CandidateFact where
  articleId : Option Nat
  entityRef : EntityRef
  fieldName : String
  value : Value
  confidence : ℚ
  sourceReliability : ℚ
deriving DecidableEq, Repr

/-- An immutable audit record (`AutoResolutionLog` in
`web-next/lib/types.ts`, `AutoResolutionLogEntry` in spec §3). -/
structure LogEntry where
  id : Nat
  articleId : Option Nat
  entityKind : EntityKind
  entityId : Nat
  fieldName : String
  oldValue : Option Value
  newValue : Value
  resolutionType : ResolutionType
  reasoning : String
  confidence : ℚ
  sourceReliability : ℚ
  createdAt : Nat
deriving DecidableEq, Repr

/-- The state acted on by the Decision Engine: the entity store, the
append-only audit log and the conflict ledger, plus an id source and a
logical clock for `created_at` stamps. -/
structure EngineState where
  entities : List Entity
  auditLog : List LogEntry
  conflicts : List ConflictFlag
  nextId : Nat
  clock : Nat
deriving DecidableEq, Repr

/-- Entity resolution (spec §4.2 step 1): an entity reference matches the
stored entity with its id; a proposed reference (no id) matches nothing. -/
def findEntity (st : EngineState) (ref : EntityRef) : Option Entity :=
  match ref.refId with
  | none => none
  | some i => st.entities.find? (fun e => e.id == i)

/-- Replace the entity with the given id in the store. -/
def updateEntity (es : List Entity) (i : Nat) (e2 : Entity) : List Entity :=
  es.map (fun g => if g.id == i then e2 else g)

/-- Decision thresholds (spec §4.2; inferred defaults per §9). -/
def ENROLL_THRESHOLD : ℚ := 3/4

def RECONCILE_THRESHOLD : ℚ := 7/20

def CONFIDENCE_FLOOR : ℚ := 3/5

/-- `conflict_score = 1 − (confidence × source_reliability)` (spec §4.2
step 4). -/
def conflictScore (confidence sourceReliability : ℚ) : ℚ :=
  1 - confidence * sourceReliability

/-- Outcome of the Decision Engine for one candidate fact: the four decision
types plus the no-op outcome of the equivalence check. -/
inductive Decision
  | Filled
  | Reconciled
  | Enrolled
  | NoOp
  | Flagged (score : ℚ)
deriving DecidableEq, Repr

/-- The entity created by an ENROLL decision: the implied kind with the
single candidate field populated (spec §4.2 step 1). -/
def newEnrolledEntity (fact : CandidateFact) (st : EngineState) : Entity :=
  { id := st.nextId, kind := fact.entityRef.kind
    fields := [(fact.fieldName, fact.value)]
    is_verified := false, reliability := fact.sourceReliability }

/-- The audit entry appended by an ENROLL decision. -/
def enrollLogEntry (fact : CandidateFact) (st : EngineState) : LogEntry :=
  { id := st.nextId + 1, articleId := fact.articleId
    entityKind := fact.entityRef.kind, entityId := st.nextId
    fieldName := fact.fieldName, oldValue := none, newValue := fact.value
    resolutionType := .ENROLL, reasoning := "auto-enrolled unknown entity"
    confidence := fact.confidence, sourceReliability := fact.sourceReliability
    createdAt := st.clock }

/-- The flag created when an unknown entity is below the enroll threshold
(score `1 − confidence`, spec §4.2 step 1). -/
def unknownEntityFlag (fact : CandidateFact) (st : EngineState) : ConflictFlag :=
  { id := st.nextId, articleId := fact.articleId
    entityKind := fact.entityRef.kind, entityId := 0
    fieldName := fact.fieldName, existingValue := none
    conflictingValue := fact.value
    conflictReason := "unknown entity below enroll threshold"
    conflictScore := 1 - fact.confidence, status := .OPEN
    resolvedBy := none, resolvedAt := none, createdAt := st.clock }

/-- The audit entry appended by a FILL decision (`old_value = null`). -/
def fillLogEntry (fact : CandidateFact) (st : EngineState) (e : Entity) : LogEntry :=
  { id := st.nextId, articleId := fact.articleId
    entityKind := e.kind, entityId := e.id
    fieldName := fact.fieldName, oldValue := none, newValue := fact.value
    resolutionType := .FILL, reasoning := "filled empty field"
    confidence := fact.confidence, sourceReliability := fact.sourceReliability
    createdAt := st.clock }

/-- State after a FILL decision: the field written and the log appended. -/
def filledState (fact : CandidateFact) (st : EngineState) (e : Entity) : EngineState :=
  { st with
      entities := updateEntity st.entities e.id (e.writeField fact.fieldName fact.value)
      auditLog := st.auditLog ++ [fillLogEntry fact st e]
      nextId := st.nextId + 1, clock := st.clock + 1 }

/-- The audit entry appended by a RECONCILE decision (old value recorded). -/
def reconcileLogEntry (fact : CandidateFact) (st : EngineState) (e : Entity)
    (old : Value) : LogEntry :=
  { id := st.nextId, articleId := fact.articleId
    entityKind := e.kind, entityId := e.id
    fieldName := fact.fieldName, oldValue := some old, newValue := fact.value
    resolutionType := .RECONCILE, reasoning := "auto-reconciled contradiction"
    confidence := fact.confidence, sourceReliability := fact.sourceReliability
    createdAt := st.clock }

/-- State after a RECONCILE decision. -/
def reconciledState (fact : CandidateFact) (st : EngineState) (e : Entity)
    (old : Value) : EngineState :=
  { st with
      entities := updateEntity st.entities e.id (e.writeField fact.fieldName fact.value)
      auditLog := st.auditLog ++ [reconcileLogEntry fact st e old]
      nextId := st.nextId + 1, clock := st.clock + 1 }

/-- The OPEN flag created by the conflict-scoring step (spec §4.2 step 4). -/
def conflictFlagOf (fact : CandidateFact) (st : EngineState) (e : Entity)
    (old : Value) : ConflictFlag :=
  { id := st.nextId, articleId := fact.articleId
    entityKind := e.kind, entityId := e.id
    fieldName := fact.fieldName, existingValue := some old
    conflictingValue := fact.value
    conflictReason := "contradicts existing value"
    conflictScore := conflictScore fact.confidence fact.sourceReliability
    status := .OPEN, resolvedBy := none, resolvedAt := none
    createdAt := st.clock }

/-- The conflict-scoring step for a non-empty, non-equivalent field (spec
§4.2 step 4): reconcile when the score is at most `RECONCILE_THRESHOLD` and
confidence is at least `CONFIDENCE_FLOOR`, otherwise flag. -/
def conflictStep (fact : CandidateFact) (st : EngineState) (e : Entity)
    (old : Value) : Decision × EngineState :=
  let score := conflictScore fact.confidence fact.sourceReliability
  if score ≤ RECONCILE_THRESHOLD ∧ CONFIDENCE_FLOOR ≤ fact.confidence then
    (.Reconciled, reconciledState fact st e old)
  else
    (.Flagged score,
      { st with
          conflicts := st.conflicts ++ [conflictFlagOf fact st e old]
          nextId := st.nextId + 1, clock := st.clock + 1 })

/-- Modelled from the spec: the Decision Engine `resolve(fact)` (§4.2),
absent from the source tree.  Evaluated in the fixed order: entity
resolution (enroll or flag an unknown entity), empty-field fill, equivalence
no-op, conflict scoring (reconcile or flag). -/
def resolveFact (fact : CandidateFact) (st : EngineState) : Decision × EngineState :=
  match findEntity st fact.entityRef with
  | none =>
    if ENROLL_THRESHOLD ≤ fact.confidence then
      (.Enrolled,
        { st with
            entities := st.entities ++ [newEnrolledEntity fact st]
            auditLog := st.auditLog ++ [enrollLogEntry fact st]
            nextId := st.nextId + 2, clock := st.clock + 1 })
    else
      (.Flagged (1 - fact.confidence),
        { st with
            conflicts := st.conflicts ++ [unknownEntityFlag fact st]
            nextId := st.nextId + 1, clock := st.clock + 1 })
  | some e =>
    match e.fieldValue fact.fieldName with
    | none => (.Filled, filledState fact st e)
    | some old =>
      if isEmptyVal old then (.Filled, filledState fact st e)
      else if equivalent old fact.value then (.NoOp, st)
      else conflictStep fact st e old

/-! ## Supporting lemmas about the engine -/

lemma equivalent_refl (v : Value) : equivalent v v = true := by
  cases v <;> simp [equivalent]

lemma lookupField_setField (fs : List (String × Value)) (name : String) (v : Value) :
    lookupField (setField fs name v) name = some v := by
  induction fs with
  | nil => simp [setField, lookupField]
  | cons p rest ih =>
    obtain ⟨k, w⟩ := p
    by_cases hk : k = name
    · subst hk
      simp [setField, lookupField]
    · have h2 : setField ((k, w) :: rest) name v = (k, w) :: setField rest name v := by
        simp [setField, hk]
      rw [h2]
      unfold lookupField
      rw [List.find?_cons_of_neg _ (by simp [hk])]
      exact ih

lemma find?_updateEntity (i : Nat) (e e2 : Entity) (hid : e2.id = e.id) :
    ∀ l : List Entity, l.find? (fun g => g.id == i) = some e →
      (updateEntity l e.id e2).find? (fun g => g.id == i) = some e2 := by
  intro l
  induction l with
  | nil => intro h; simp at h
  | cons a as ih =>
    intro h
    have hei : (e.id == i) = true := by
      have h2 := List.find?_some (p := fun g : Entity => g.id == i) h
      simpa using h2
    by_cases ha : a.id = i
    · rw [List.find?_cons_of_pos _ (by simp [ha])] at h
      injection h with h
      subst h
      simp only [updateEntity, List.map_cons, beq_self_eq_true, if_true]
      exact List.find?_cons_of_pos _ (by simp [hid, ha])
    · rw [List.find?_cons_of_neg _ (by simp [ha])] at h
      have hane : (a.id == e.id) = false := by
        have hE : e.id = i := by simpa using hei
        simp [hE, ha]
      simp only [updateEntity, List.map_cons, hane, Bool.false_eq_true, if_false]
      rw [List.find?_cons_of_neg _ (by simp [ha])]
      exact ih h

/-- After the engine writes the candidate value into the target field, the
same fact resolves to the no-op equivalence outcome and leaves the state
untouched. -/
lemma resolveFact_after_write (fact : CandidateFact) (st2 : EngineState)
    (i : Nat) (e2 : Entity)
    (href : fact.entityRef.refId = some i)
    (hfind : st2.entities.find? (fun g => g.id == i) = some e2)
    (hval : e2.fieldValue fact.fieldName = some fact.value)
    (hfe : isEmptyVal fact.value = false) :
    resolveFact fact st2 = (.NoOp, st2) := by
  have hfe2 : findEntity st2 fact.entityRef = some e2 := by
    rw [findEntity, href]
    exact hfind
  simp [resolveFact, hfe2, hval, hfe, equivalent_refl]

/-! ## Claim theorems for the Decision Engine -/

/-- Claim C2: for a candidate fact whose entity reference matches no stored
entity, the decision is `Enrolled` exactly when
`ENROLL_THRESHOLD ≤ confidence` (the 0.75 boundary is inclusive): at or above
the threshold a new entity is created and an ENROLL log entry appended; below
it the fact is `Flagged` with score `1 − confidence` and neither the entity
store nor the audit log changes. -/
theorem enroll_threshold_inclusive (st : EngineState) (fact : CandidateFact)
    (h : findEntity st fact.entityRef = none) :
    ((resolveFact fact st).1 = .Enrolled ↔ ENROLL_THRESHOLD ≤ fact.confidence) ∧
    (ENROLL_THRESHOLD ≤ fact.confidence →
      (resolveFact fact st).2.entities = st.entities ++ [newEnrolledEntity fact st] ∧
      (resolveFact fact st).2.auditLog = st.auditLog ++ [enrollLogEntry fact st] ∧
      (enrollLogEntry fact st).resolutionType = .ENROLL) ∧
    (fact.confidence < ENROLL_THRESHOLD →
      (resolveFact fact st).1 = .Flagged (1 - fact.confidence) ∧
      (resolveFact fact st).2.entities = st.entities ∧
      (resolveFact fact st).2.auditLog = st.auditLog) := by
  by_cases hc : ENROLL_THRESHOLD ≤ fact.confidence
  · have hres : resolveFact fact st =
        (.Enrolled,
          { st with
              entities := st.entities ++ [newEnrolledEntity fact st]
              auditLog := st.auditLog ++ [enrollLogEntry fact st]
              nextId := st.nextId + 2, clock := st.clock + 1 }) := by
      simp [resolveFact, h, hc]
    refine ⟨⟨fun _ => hc, fun _ => by rw [hres]⟩,
            fun _ => by rw [hres]; exact ⟨rfl, rfl, rfl⟩,
            fun hlt => absurd hc (not_le.mpr hlt)⟩
  · have hres : resolveFact fact st =
        (.Flagged (1 - fact.confidence),
          { st with
              conflicts := st.conflicts ++ [unknownEntityFlag fact st]
              nextId := st.nextId + 1, clock := st.clock + 1 }) := by
      simp [resolveFact, h, hc]
    refine ⟨⟨fun he => ?_, fun hc2 => absurd hc2 hc⟩,
            fun hc2 => absurd hc2 hc,
            fun _ => by rw [hres]; exact ⟨rfl, rfl, rfl⟩⟩
    rw [hres] at he
    simp at he

/-- The empty engine state. -/
def emptyState : EngineState :=
  { entities := [], auditLog := [], conflicts := [], nextId := 0, clock := 0 }

/-- A proposed (unmatched) entity reference. -/
def enrollRef : EntityRef := { refId := none, kind := .ARTIST, name := "NewJeans" }

/-- An unknown-entity fact with confidence exactly 0.75. -/
def factAtThreshold : CandidateFact :=
  { articleId := some 1, entityRef := enrollRef, fieldName := "name"
    value := .text "NewJeans", confidence := 3/4, sourceReliability := 9/10 }

/-- An unknown-entity fact with confidence 0.749999. -/
def factBelowThreshold : CandidateFact :=
  { articleId := some 1, entityRef := enrollRef, fieldName := "name"
    value := .text "NewJeans", confidence := 749999/1000000
    sourceReliability := 9/10 }

/-- Witness for C2: the boundary behavior at confidence 0.75 and 0.749999 on
the empty store. -/
theorem enroll_threshold_inclusive_witness :
    (resolveFact factAtThreshold emptyState).1 = .Enrolled ∧
    (resolveFact factAtThreshold emptyState).2.entities =
      emptyState.entities ++ [newEnrolledEntity factAtThreshold emptyState] ∧
    (resolveFact factBelowThreshold emptyState).1 =
      .Flagged (1 - factBelowThreshold.confidence) ∧
    (resolveFact factBelowThreshold emptyState).2.entities = emptyState.entities := by
  have hle : ENROLL_THRESHOLD ≤ factAtThreshold.confidence := by
    norm_num [ENROLL_THRESHOLD, factAtThreshold]
  have hlt : factBelowThreshold.confidence < ENROLL_THRESHOLD := by
    norm_num [ENROLL_THRESHOLD, factBelowThreshold]
  refine ⟨(enroll_threshold_inclusive emptyState factAtThreshold rfl).1.mpr hle,
          ((enroll_threshold_inclusive emptyState factAtThreshold rfl).2.1 hle).1,
          ((enroll_threshold_inclusive emptyState factBelowThreshold rfl).2.2 hlt).1,
          ((enroll_threshold_inclusive emptyState factBelowThreshold rfl).2.2 hlt).2.1⟩

/-- Claim C3: at the conflict-scoring step (entity exists, target field
non-empty and not equivalent to the candidate), the conflict score is
`1 − confidence × source_reliability`; confidence 1 with reliability 1 yields
score 0, and confidence 0.5 with reliability 0.5 yields 0.75, which exceeds
`RECONCILE_THRESHOLD` (0.35), so such a fact is flagged with an OPEN
`ConflictFlag` carrying conflict score 0.75. -/
theorem conflict_score_formula (st : EngineState) (fact : CandidateFact)
    (e : Entity) (old : Value)
    (hfind : findEntity st fact.entityRef = some e)
    (hval : e.fieldValue fact.fieldName = some old)
    (hne : isEmptyVal old = false)
    (heq : equivalent old fact.value = false) :
    (¬ (conflictScore fact.confidence fact.sourceReliability ≤ RECONCILE_THRESHOLD ∧
        CONFIDENCE_FLOOR ≤ fact.confidence) →
      (resolveFact fact st).1 =
        .Flagged (conflictScore fact.confidence fact.sourceReliability) ∧
      (resolveFact fact st).2.conflicts =
        st.conflicts ++ [conflictFlagOf fact st e old] ∧
      (conflictFlagOf fact st e old).status = .OPEN ∧
      (conflictFlagOf fact st e old).conflictScore =
        conflictScore fact.confidence fact.sourceReliability) ∧
    conflictScore 1 1 = 0 ∧
    conflictScore (1/2) (1/2) = 3/4 ∧
    RECONCILE_THRESHOLD < conflictScore (1/2) (1/2) := by
  refine ⟨fun hnc => ?_, by norm_num [conflictScore],
          by norm_num [conflictScore],
          by norm_num [conflictScore, RECONCILE_THRESHOLD]⟩
  have hres : resolveFact fact st =
      (.Flagged (conflictScore fact.confidence fact.sourceReliability),
        { st with
            conflicts := st.conflicts ++ [conflictFlagOf fact st e old]
            nextId := st.nextId + 1, clock := st.clock + 1 }) := by
    simp [resolveFact, hfind, hval, hne, heq, conflictStep, hnc]
  rw [hres]
  exact ⟨rfl, rfl, rfl, rfl⟩

/-- The stored group entity used in the concrete scenarios. -/
def hybeEntity : Entity :=
  { id := 1, kind := .GROUP, fields := [("label", Value.text "HYBE")]
    is_verified := false, reliability := 9/10 }

/-- An engine state holding `hybeEntity`. -/
def hybeState : EngineState :=
  { entities := [hybeEntity], auditLog := [], conflicts := [], nextId := 10
    clock := 100 }

/-- Spec scenario 4: candidate "Big Hit" against stored "HYBE" with
confidence 0.5 and reliability 0.5. -/
def bigHitFact : CandidateFact :=
  { articleId := some 4, entityRef := { refId := some 1, kind := .GROUP, name := "HYBE" }
    fieldName := "label", value := .text "Big Hit", confidence := 1/2
    sourceReliability := 1/2 }

/-- Witness for C3: scenario 4 is flagged OPEN with conflict score 0.75. -/
theorem conflict_score_formula_witness :
    (resolveFact bigHitFact hybeState).1 = .Flagged (3/4) ∧
    (conflictFlagOf bigHitFact hybeState hybeEntity (.text "HYBE")).status = .OPEN ∧
    (conflictFlagOf bigHitFact hybeState hybeEntity (.text "HYBE")).conflictScore = 3/4 := by
  have h := (conflict_score_formula hybeState bigHitFact hybeEntity (.text "HYBE")
      rfl rfl rfl (by decide)).1
    (by norm_num [conflictScore, RECONCILE_THRESHOLD, CONFIDENCE_FLOOR, bigHitFact])
  have hsc : conflictScore bigHitFact.confidence bigHitFact.sourceReliability = 3/4 := by
    norm_num [conflictScore, bigHitFact]
  refine ⟨?_, h.2.2.1, hsc ▸ h.2.2.2⟩
  rw [h.1, hsc]

/-- Claim C4: submitting the same `(entity, field, value)` fact twice
produces exactly one entity mutation and one log entry, or zero of each —
when the target field is non-empty and semantically equal to the candidate
value, `resolve` performs no mutation, appends nothing and flags nothing;
and after a fact is applied (Filled or Reconciled, one appended log entry),
re-submitting it is a no-op that leaves the state unchanged. -/
theorem equivalence_idempotent (st : EngineState) (fact : CandidateFact)
    (e : Entity)
    (hfind : findEntity st fact.entityRef = some e)
    (hfe : isEmptyVal fact.value = false) :
    (∀ old, e.fieldValue fact.fieldName = some old → isEmptyVal old = false →
      equivalent old fact.value = true → resolveFact fact st = (.NoOp, st)) ∧
    (((resolveFact fact st).1 = .Filled ∨ (resolveFact fact st).1 = .Reconciled) →
      (resolveFact fact st).2.auditLog.length = st.auditLog.length + 1 ∧
      resolveFact fact (resolveFact fact st).2 = (.NoOp, (resolveFact fact st).2)) := by
  obtain ⟨i, href⟩ : ∃ i, fact.entityRef.refId = some i := by
    cases hr : fact.entityRef.refId with
    | none => rw [findEntity, hr] at hfind; exact absurd hfind (by simp)
    | some i => exact ⟨i, rfl⟩
  have hfl : st.entities.find? (fun g => g.id == i) = some e := by
    rw [findEntity, href] at hfind
    exact hfind
  have hwid : (e.writeField fact.fieldName fact.value).id = e.id := rfl
  have hwval : (e.writeField fact.fieldName fact.value).fieldValue fact.fieldName
      = some fact.value := lookupField_setField e.fields fact.fieldName fact.value
  have hfind2 : findEntity st fact.entityRef = some e := by
    rw [findEntity, href]
    exact hfl
  have hsecond : ∀ st2 : EngineState,
      st2.entities = updateEntity st.entities e.id (e.writeField fact.fieldName fact.value) →
      resolveFact fact st2 = (.NoOp, st2) := by
    intro st2 hents
    refine resolveFact_after_write fact st2 i (e.writeField fact.fieldName fact.value)
      href ?_ hwval hfe
    rw [hents]
    exact find?_updateEntity i e _ hwid st.entities hfl
  constructor
  · intro old hval hne heq
    simp [resolveFact, hfind2, hval, hne, heq]
  · intro hdec
    cases hval : e.fieldValue fact.fieldName with
    | none =>
      have hres : resolveFact fact st = (.Filled, filledState fact st e) := by
        simp [resolveFact, hfind2, hval]
      rw [hres]
      exact ⟨by simp [filledState], hsecond _ rfl⟩
    | some old =>
      by_cases hne : isEmptyVal old = true
      · have hres : resolveFact fact st = (.Filled, filledState fact st e) := by
          simp [resolveFact, hfind2, hval, hne]
        rw [hres]
        exact ⟨by simp [filledState], hsecond _ rfl⟩
      · have hne2 : isEmptyVal old = false := by
          cases h2 : isEmptyVal old
          · rfl
          · exact absurd h2 hne
        by_cases heqv : equivalent old fact.value = true
        · have hres : resolveFact fact st = (.NoOp, st) := by
            simp [resolveFact, hfind2, hval, hne2, heqv]
          rw [hres] at hdec
          simp at hdec
        · have heqv2 : equivalent old fact.value = false := by
            cases h2 : equivalent old fact.value
            · rfl
            · exact absurd h2 heqv
          by_cases hcond : conflictScore fact.confidence fact.sourceReliability ≤
              RECONCILE_THRESHOLD ∧ CONFIDENCE_FLOOR ≤ fact.confidence
          · have hres : resolveFact fact st =
                (.Reconciled, reconciledState fact st e old) := by
              simp [resolveFact, hfind2, hval, hne2, heqv2, conflictStep, hcond]
            rw [hres]
            exact ⟨by simp [reconciledState], hsecond _ rfl⟩
          · have hres : resolveFact fact st =
                (.Flagged (conflictScore fact.confidence fact.sourceReliability),
                  { st with
                      conflicts := st.conflicts ++ [conflictFlagOf fact st e old]
                      nextId := st.nextId + 1, clock := st.clock + 1 }) := by
              simp [resolveFact, hfind2, hval, hne2, heqv2, conflictStep, hcond]
            rw [hres] at hdec
            simp at hdec

/-- Spec scenario 2 re-submission: candidate " hybe " against stored "HYBE"
(equivalent after normalization). -/
def hybeEquivalentFact : CandidateFact :=
  { articleId := some 5, entityRef := { refId := some 1, kind := .GROUP, name := "HYBE" }
    fieldName := "label", value := .text " hybe ", confidence := 1/2
    sourceReliability := 1/2 }

/-- A fact filling the (absent) fandom field of `hybeEntity`. -/
def fandomFact : CandidateFact :=
  { articleId := some 6, entityRef := { refId := some 1, kind := .GROUP, name := "HYBE" }
    fieldName := "fandom", value := .text "ARMY", confidence := 9/10
    sourceReliability := 9/10 }

/-- Witness for C4: an equivalent re-submission is a pure no-op, and a fill
followed by the same fact appends exactly one log entry and then no-ops. -/
theorem equivalence_idempotent_witness :
    resolveFact hybeEquivalentFact hybeState = (.NoOp, hybeState) ∧
    (resolveFact fandomFact hybeState).2.auditLog.length =
      hybeState.auditLog.length + 1 ∧
    resolveFact fandomFact (resolveFact fandomFact hybeState).2 =
      (.NoOp, (resolveFact fandomFact hybeState).2) := by
  refine ⟨(equivalence_idempotent hybeState hybeEquivalentFact hybeEntity rfl
      (by decide)).1 (.text "HYBE") rfl rfl (by decide), ?_, ?_⟩
  · exact ((equivalence_idempotent hybeState fandomFact hybeEntity rfl
      (by decide)).2 (Or.inl rfl)).1
  · exact ((equivalence_idempotent hybeState fandomFact hybeEntity rfl
      (by decide)).2 (Or.inl rfl)).2

/-! ## Summary aggregation (`AutomationSummary` in `web-next/lib/types.ts`;
computation modelled from spec §6) -/

/-- The dashboard summary payload (`AutomationSummary` in
`web-next/lib/types.ts`). -/
structure AutomationSummary where
  period : String
  total_decisions : Nat
  fill_count : Nat
  reconcile_count : Nat
  enroll_count : Nat
  conflicts_resolved_24h : Nat
  open_conflicts : Nat
  avg_reliability : ℚ
deriving DecidableEq, Repr

/-- Twenty-four hours, in seconds. -/
def day24 : Nat := 86400

/-- `t` lies in the trailing 24-hour window ending at `now`. -/
def inWindow (now t : Nat) : Bool := now ≤ t + day24

/-- A conflict was resolved inside the trailing window. -/
def resolvedInWindow (now : Nat) (c : ConflictFlag) : Bool :=
  match c.resolvedAt with
  | some t => inWindow now t
  | none => false

/-- Modelled from the spec: the backend behind `GET /automation/summary` is
not in the source tree (only its client and its response type are).  Per §6
it aggregates, over a trailing 24-hour window, the FILL/RECONCILE/ENROLL
decision counts, the conflicts resolved in the window, the currently OPEN
conflicts, and the average source reliability of the window's decisions. -/
def summarize (logs : List LogEntry) (conflicts : List ConflictFlag)
    (now : Nat) : AutomationSummary :=
  let window := logs.filter (fun l => inWindow now l.createdAt)
  { period := "24h"
    total_decisions := window.length
    fill_count := (window.filter (fun l => l.resolutionType == .FILL)).length
    reconcile_count := (window.filter (fun l => l.resolutionType == .RECONCILE)).length
    enroll_count := (window.filter (fun l => l.resolutionType == .ENROLL)).length
    conflicts_resolved_24h := (conflicts.filter (resolvedInWindow now)).length
    open_conflicts := (conflicts.filter (fun c => c.status == .OPEN)).length
    avg_reliability :=
      if window.length = 0 then 0
      else (window.map (fun l => l.sourceReliability)).sum / window.length }

lemma length_filter_resolution_partition (l : List LogEntry) :
    l.length = (l.filter (fun x => x.resolutionType == .FILL)).length
             + (l.filter (fun x => x.resolutionType == .RECONCILE)).length
             + (l.filter (fun x => x.resolutionType == .ENROLL)).length := by
  induction l with
  | nil => rfl
  | cons a as ih =>
    cases h : a.resolutionType <;>
      simp [List.filter_cons, h, ih] <;> omega

/-- Claim C8: the summary aggregation reports, over a trailing 24-hour
window, the FILL/RECONCILE/ENROLL decision counts, the conflicts resolved in
that window, the currently OPEN conflicts and an average reliability metric;
its `total_decisions` equals the sum of the FILL, RECONCILE and ENROLL
counts. -/
theorem summary_aggregation_fields (logs : List LogEntry)
    (conflicts : List ConflictFlag) (now : Nat) :
    (summarize logs conflicts now).period = "24h" ∧
    (summarize logs conflicts now).total_decisions =
      (summarize logs conflicts now).fill_count +
      (summarize logs conflicts now).reconcile_count +
      (summarize logs conflicts now).enroll_count ∧
    (summarize logs conflicts now).fill_count =
      ((logs.filter (fun l => inWindow now l.createdAt)).filter
        (fun l => l.resolutionType == .FILL)).length ∧
    (summarize logs conflicts now).conflicts_resolved_24h =
      (conflicts.filter (resolvedInWindow now)).length ∧
    (summarize logs conflicts now).open_conflicts =
      (conflicts.filter (fun c => c.status == .OPEN)).length := by
  refine ⟨rfl, ?_, rfl, rfl, rfl⟩
  exact length_filter_resolution_partition
    (logs.filter (fun l => inWindow now l.createdAt))

end TenAsia
